import Mathlib

/-!
Verification development for the truepeoplesearch scraping repository
(src/scraper.py, src/api.py).  Each Python function relevant to the
checked properties is shallowly embedded as an executable Lean
definition; external effects (browser navigation, sleeps, file writes)
are represented by oracle/behaviour parameters and explicit event
traces.  Theorems about the embeddings settle the specification claims.
-/

namespace TPS

/-! ## String / list utilities shared by the embeddings -/

/-- Membership of a needle list as a leading segment of the haystack.
Used to build the substring test that models the Python `in` operator
on strings. -/
def leadsWith : List Char → List Char → Bool
  | [], _ => true
  | _ :: _, [] => false
  | a :: as, b :: bs => a = b && leadsWith as bs

/-- `subIn needle haystack` models Python `needle in haystack` for
strings (contiguous substring containment). -/
def subIn : List Char → List Char → Bool
  | n, [] => leadsWith n []
  | n, h :: t => leadsWith n (h :: t) || subIn n t

/-- Python `sub in s` on strings. -/
def strContains (s sub : String) : Bool := subIn sub.toList s.toList

/-- Break a character list at the first occurrence of `c`. -/
def breakAtChar (c : Char) : List Char → Option (List Char × List Char)
  | [] => none
  | x :: xs =>
    if x = c then some ([], xs)
    else
      match breakAtChar c xs with
      | some (a, b) => some (x :: a, b)
      | none => none

/-- Python `s.split(sep, 1)` for a one-character separator (the source
only splits on `";"`): the head part and, when the separator occurs,
the remainder. -/
def splitOnce (s : String) (c : Char) : String × Option String :=
  match breakAtChar c s.toList with
  | none => (s, none)
  | some (a, b) => (String.mk a, some (String.mk b))

/-- Python `s.strip()`: drop leading and trailing whitespace. -/
def pyStrip (s : String) : String :=
  String.mk (((s.toList.dropWhile Char.isWhitespace).reverse.dropWhile
    Char.isWhitespace).reverse)

/-- Python truthiness of an optional string (`None` and `""` are falsy). -/
def pyTruthy : Option String → Bool
  | none => false
  | some s => !s.isEmpty

/-- First-seen-order deduplicating append: the Python idiom
`if x not in acc: acc.append(x)` folded over `xs`. -/
def dedupAppend (acc : List String) (xs : List String) : List String :=
  xs.foldl (fun a x => if x ∈ a then a else a ++ [x]) acc

/-! ## The email pattern of api.py line 451

`re.findall(r'[\w\.-]+@[\w\.-]+\.[a-zA-Z]{2,}', text)`: scan left to
right; at each position try to match greedily with backtracking;
non-overlapping matches, resuming after each match.  The character
class `[\w\.-]` is word characters (ASCII letters, digits, underscore)
plus dot and dash; the tail is a literal dot followed by two or more
ASCII letters. -/

def isWordDotDash (c : Char) : Bool :=
  c.isAlpha || c.isDigit || c = '_' || c = '.' || c = '-'

def isAsciiLetter (c : Char) : Bool := c.isAlpha

/-- Maximal run of characters satisfying `p`, with the rest. -/
def takeRun (p : Char → Bool) : List Char → List Char × List Char
  | [] => ([], [])
  | c :: cs =>
    if p c then
      let r := takeRun p cs
      (c :: r.1, r.2)
    else ([], c :: cs)

/-- After a candidate dot: the greedy `[a-zA-Z]{2,}` tail.  Succeeds
when the maximal letter run has length at least two. -/
def dotTail (cs : List Char) : Option (List Char × List Char) :=
  let r := takeRun isAsciiLetter cs
  if 2 ≤ r.1.length then some (r.1, r.2) else none

/-- Backtracking search inside the post-`@` run for the rightmost dot
whose letter tail is viable (the regex engine prefers the longest
`[\w\.-]+`, i.e. the rightmost literal dot).  Returns the matched part
of the run and the leftover. -/
def splitAtLastViableDot : List Char → Option (List Char × List Char)
  | [] => none
  | c :: cs =>
    match splitAtLastViableDot cs with
    | some (m, rest) => some (c :: m, rest)
    | none =>
      if c = '.' then
        match dotTail cs with
        | some (al, rest) => some ('.' :: al, rest)
        | none => none
      else none

/-- Attempt to match the email pattern at the start of `l`.  On success
returns the matched characters and the remainder of the input. -/
def matchAt (l : List Char) : Option (List Char × List Char) :=
  let r1 := takeRun isWordDotDash l
  match r1.1, r1.2 with
  | [], _ => none
  | _ :: _, [] => none
  | _ :: _, c2 :: rest2 =>
    if c2 = '@' then
      let r2 := takeRun isWordDotDash rest2
      if r2.1.isEmpty then none
      else
        match splitAtLastViableDot r2.1 with
        | some (m2, leftover) =>
          if m2.head? = some '.' then none
          else some (r1.1 ++ c2 :: m2, leftover ++ r2.2)
        | none => none
    else none

/-- Fueled left-to-right non-overlapping scan, resuming after each
match; fuel equal to the input length suffices because every step
consumes at least one character. -/
def scanEmails : Nat → List Char → List (List Char)
  | 0, _ => []
  | _ + 1, [] => []
  | fuel + 1, c :: cs =>
    match matchAt (c :: cs) with
    | some (m, rest) => m :: scanEmails fuel rest
    | none => scanEmails fuel cs

/-- `re.findall` of the email pattern over a string. -/
def findEmails (s : String) : List String :=
  (scanEmails s.toList.length s.toList).map fun l => String.mk l

/-! ## Extraction engine

Markup is modelled post-parse: a profile page is the list of phone
candidate blocks found by
`soup.find_all('div', {'class': 'col', 'bis_skin_checked': '1'})` and
the list of stripped text contents of the generic content blocks found
by `soup.find_all('div', {'class': 'col'})`. -/

/-- One phone candidate block.  `hasLink` is the presence of the
`a[data-link-to-more=phone]` anchor, `span` the stripped text of its
`span[itemprop=telephone]` child when present, `info` the stripped text
of the `div.mt-1.dt-ln` caption when present. -/
structure PhoneBlock where
  hasLink : Bool
  span : Option String
  info : Option String
deriving DecidableEq

/-- A profile page, post-parse. -/
structure Markup where
  phoneSections : List PhoneBlock
  emailDivs : List String
deriving DecidableEq

/-- Whether a block carries the possible-primary caption; the caption is
only consulted when the phone anchor is present
(scraper.py lines 396-411). -/
def primaryFlagged (b : PhoneBlock) : Bool :=
  b.hasLink && (match b.info with
    | some t => strContains t "Possible Primary Phone"
    | none => false)

/-- One step of the scraper.py 393-411 phone scan.  The state carries
the accumulated numbers and the Python local variable `phone` (the last
telephone text assigned); `none` is an escaped exception: an
UnboundLocalError when the promotion runs before any `phone` was
assigned, or a ValueError if `remove` misses. -/
def scanStep (st : Option (List String × Option String)) (b : PhoneBlock) :
    Option (List String × Option String) :=
  match st with
  | none => none
  | some (acc, last) =>
    if b.hasLink then
      let acc1 := match b.span with
        | some p => if p ∈ acc then acc else acc ++ [p]
        | none => acc
      let last1 := match b.span with
        | some p => some p
        | none => last
      if primaryFlagged b then
        match last1 with
        | none => none
        | some p => if p ∈ acc1 then some (p :: acc1.erase p, last1) else none
      else some (acc1, last1)
    else some (acc, last)

/-- The scraper-path phone scan (scraper.py `extract_profile_info`,
lines 393-411): ordered dedup with possible-primary promotion via
`remove` + `insert(0, ...)`. -/
def scraperPhoneScan (bs : List PhoneBlock) : Option (List String) :=
  (bs.foldl scanStep (some ([], none))).map (·.1)

/-- One step of the scan with the promotion removed. -/
def plainStep (acc : List String) (b : PhoneBlock) : List String :=
  if b.hasLink then
    match b.span with
    | some p => if p ∈ acc then acc else acc ++ [p]
    | none => acc
  else acc

/-- The same scan with the promotion removed: phone numbers in document
order, deduplicated first-seen.  Used to state order preservation. -/
def plainPhoneScan (bs : List PhoneBlock) : List String :=
  bs.foldl plainStep []

/-- The scraper-path email scan (scraper.py lines 413-420): any content
block whose text contains both an `@` and a `.` contributes its whole
stripped text as one email, deduplicated first-seen. -/
def scraperEmailScan (ts : List String) : List String :=
  ts.foldl (fun acc t =>
    if strContains t "@" && strContains t "." then
      (if pyStrip t ∈ acc then acc else acc ++ [pyStrip t])
    else acc) []

/-- The api-path email scan (api.py lines 445-454): content blocks whose
text contains `@` and `.` are scanned with the email regex; matches are
deduplicated first-seen. -/
def apiEmailScan (ts : List String) : List String :=
  ts.foldl (fun acc t =>
    if strContains t "@" && strContains t "." then dedupAppend acc (findEmails t)
    else acc) []

/-- Modelled from the spec (section 4.3, Emails): scan content blocks
for pattern-matching substrings and deduplicate by exact equality,
first-seen order.  Stated for comparison with the two source scans. -/
def specEmailExtraction (ts : List String) : List String :=
  dedupAppend [] (ts.flatMap findEmails)

/-- The api-path phone-number order (api.py `_extract_profile_info`,
lines 407-443): one entry per section carrying both the phone anchor
and a telephone span, appended in scan order; the phone_data fields
other than the number never affect list order and no reordering or
dedup is performed, so the projection to numbers captures the order. -/
def apiPhoneNumbers (bs : List PhoneBlock) : List String :=
  bs.foldl (fun acc b =>
    if b.hasLink then
      match b.span with
      | some p => acc ++ [p]
      | none => acc
    else acc) []

/-- Result of scraper.py `extract_profile_info`: the dict initialised at
lines 387-391.  No code path assigns `current_address`. -/
structure ProfileInfoS where
  current_address : Option String
  phone_numbers : List String
  emails : List String
deriving DecidableEq

/-- scraper.py `extract_profile_info` (lines 380-422): `none` input is a
falsy page fetch, giving the empty dict (modelled `Except.ok none`); an
exception escaping the phone scan propagates (`Except.error`). -/
def scraperExtractProfileInfo (html : Option Markup) :
    Except String (Option ProfileInfoS) :=
  match html with
  | none => Except.ok none
  | some m =>
    match scraperPhoneScan m.phoneSections with
    | none => Except.error "UnboundLocalError: local variable phone referenced before assignment"
    | some ph =>
      Except.ok (some { current_address := none
                        phone_numbers := ph
                        emails := scraperEmailScan m.emailDivs })

/-! ## Batch orchestrator (scraper.py `main`, lines 493-561)

The per-owner loop is embedded with behaviour oracles for the three
external operations inside the `try` block: the form search
(`search_by_address`), profile extraction (`extract_profile_info`) and
the partial save (`save_results`, a pandas Excel write, hence
fallible).  The batch slicing (lines 510-514) and the inter-batch
pacing sleep (lines 547-551) only add delays between groups of owners;
the records are still processed in input order, so the loop is
embedded as a single fold over the owner list. -/

/-- The fields of an input `Owner` that flow into a `ScrapingResult`. -/
structure Owner where
  first_name : String
  last_name : String
  row_index : Nat
deriving DecidableEq

/-- scraper.py `ScrapingResult` (lines 64-74). -/
structure ScrapingResult where
  owner : Owner
  current_address : Option String
  phone_numbers : List String
  emails : List String
  error : Option String
deriving DecidableEq

/-- Outcome of `scraper.search_by_address(owner)` for one owner: an
escaped exception, no profile found (`None`), or a profile URL. -/
inductive SearchO
  | raise (msg : String)
  | notFound
  | found (url : String)
deriving DecidableEq

/-- Outcome of `scraper.extract_profile_info(url)`: an escaped
exception, or a returned dict — `none` for the empty dict `{}` that a
failed page fetch yields. -/
inductive ExtractO
  | raise (msg : String)
  | ok (info : Option ProfileInfoS)
deriving DecidableEq

/-- Outcome of the partial `save_results` call (line 539). -/
inductive SaveO
  | ok
  | raise (msg : String)
deriving DecidableEq

/-- Behaviour of the external operations while processing one owner. -/
structure OwnerB where
  search : SearchO
  extract : ExtractO
  save : SaveO
deriving DecidableEq

/-- Couples the extraction outcome to the embedded
`extract_profile_info` applied to a fetched page. -/
def ExtractO.ofHtml (html : Option Markup) : ExtractO :=
  match scraperExtractProfileInfo html with
  | Except.ok i => ExtractO.ok i
  | Except.error m => ExtractO.raise m

/-- One iteration of the owner loop (scraper.py lines 517-545): returns
the record appended for this owner and the partial-save snapshot when
one is written.  Mirrors the source order: fields are assigned, then
`save_results(results, ...)` runs on the accumulated list *before* the
new record is appended, and only when that list is non-empty; a raising
save lands in the `except` which overwrites `result.error`, keeping the
already-assigned fields. -/
def processOwner (o : Owner) (b : OwnerB) (results : List ScrapingResult) :
    ScrapingResult × Option (List ScrapingResult) :=
  let r0 : ScrapingResult :=
    { owner := o, current_address := none, phone_numbers := [], emails := []
      error := none }
  match b.search with
  | SearchO.raise m => ({ r0 with error := some m }, none)
  | SearchO.notFound => ({ r0 with error := some "Profile not found" }, none)
  | SearchO.found _ =>
    match b.extract with
    | ExtractO.raise m => ({ r0 with error := some m }, none)
    | ExtractO.ok info =>
      let r1 : ScrapingResult :=
        { r0 with
          current_address := match info with
            | some i => i.current_address
            | none => none
          phone_numbers := match info with
            | some i => i.phone_numbers
            | none => []
          emails := match info with
            | some i => i.emails
            | none => [] }
      if results.isEmpty then (r1, none)
      else
        match b.save with
        | SaveO.ok => (r1, some results)
        | SaveO.raise m => ({ r1 with error := some m }, none)

/-- The owner loop folded over the whole input: final accumulated
results plus the sequence of partial-save snapshots, in write order. -/
def runBatch : List (Owner × OwnerB) → List ScrapingResult →
    List ScrapingResult × List (List ScrapingResult)
  | [], results => (results, [])
  | (o, b) :: rest, results =>
    let step := processOwner o b results
    let next := runBatch rest (results ++ [step.1])
    (next.1, (match step.2 with
      | some snap => [snap]
      | none => []) ++ next.2)

/-- One output row of `save_results` (scraper.py lines 467-491),
restricted to the claim-relevant columns. -/
structure OutRow where
  firstName : String
  lastName : String
  currentAddress : Option String
  phoneNumbers : String
  emails : String
  errorCol : Option String
deriving DecidableEq

/-- Python `'; '.join(xs)`. -/
def joinSemicolon (xs : List String) : String :=
  String.intercalate "; " xs

/-- The row built for one `ScrapingResult` by `save_results`. -/
def toRow (r : ScrapingResult) : OutRow :=
  { firstName := r.owner.first_name
    lastName := r.owner.last_name
    currentAddress := r.current_address
    phoneNumbers := joinSemicolon r.phone_numbers
    emails := joinSemicolon r.emails
    errorCol := r.error }

/-! ## Fetch engine (`_make_request`)

scraper.py lines 191-257 and api.py lines 264-328 are line-for-line the
same retry loop (the scraper variant additionally urlencodes optional
query params into the URL before the loop; that prelude is pure string
building).  The loop is embedded as a trace-producing function: sleeps
and navigations are recorded as events, randomized draws and the
browser's responses are oracle inputs.  Durations are rationals in
seconds. -/

/-- Observable timing/navigation events.  `nav` covers `driver.get` and
the form-submit click; `rebuild` is the full session teardown plus
`_setup_driver()` in the except handler. -/
inductive Ev
  | sleep (d : Rat)
  | nav (url : String)
  | rebuild
deriving DecidableEq

/-- What one attempt of the loop runs into after the pacing delay and
the navigation: an exception caught by the outer `except Exception`
(carrying the uniform(1,3) draw of the backoff and whether the
session rebuild succeeds — `some msg` is a `_setup_driver` raise),
a `TimeoutException` from the body wait, or a loaded page whose
current URL reads challenge/captcha or not at each successive check. -/
inductive AttemptOut
  | exn (msg : String) (backoffRand : Rat) (rebuild : Option String)
  | bodyTimeout
  | loaded (challenged : Nat → Bool) (page : String)

/-- One attempt's behaviour: the uniform(min_delay, max_delay) pacing
draw and the attempt outcome. -/
structure AttemptB where
  pacing : Rat
  outcome : AttemptOut

/-- The CloudFlare poll loop (scraper.py lines 217-223): up to six
checks, sleeping 5s after each check that still reads as a challenge,
breaking on the first clear check.  Returns the sleeps performed and
the index of the next unread URL check. -/
def cfPoll (c : Nat → Bool) : Nat → Nat → List Rat × Nat
  | 0, i => ([], i)
  | k + 1, i =>
    if c i then
      let r := cfPoll c k (i + 1)
      (5 :: r.1, r.2)
    else ([], i + 1)

/-- Challenge detection and wait (scraper.py lines 210-228): when the
first URL check reads as a challenge, sleep 5s, run the poll loop, then
verify once more; the Bool is whether the attempt is past the
challenge. -/
def cfHandle (c : Nat → Bool) : List Rat × Bool :=
  if c 0 then
    let pr := cfPoll c 6 1
    (5 :: pr.1, !(c pr.2))
  else ([], true)

/-- The retry loop of `_make_request`, entered with
`mrLoop url beh maxR maxR`; the `Nat` argument is the number of
remaining iterations, so the Python `attempt` index is
`maxR - remaining`.  Returns the event trace and the outcome:
`Except.ok (some page)` for returned markup, `Except.ok none` for the
function's `return None`, `Except.error` for an exception escaping the
function (only the unguarded `self._setup_driver()` on line 255 can
produce one). -/
def mrLoop (url : String) (beh : Nat → AttemptB) (maxR : Nat) :
    Nat → List Ev × Except String (Option String)
  | 0 => ([], Except.ok none)
  | r + 1 =>
    let a := maxR - (r + 1)
    let att := beh a
    let pre := [Ev.sleep att.pacing, Ev.nav url]
    match att.outcome with
    | AttemptOut.exn _ back rb =>
      if r = 0 then (pre, Except.ok none)
      else
        let w : Rat := ((a : Rat) + 1) * 3 + back
        match rb with
        | none =>
          let rest := mrLoop url beh maxR r
          (pre ++ [Ev.sleep w, Ev.rebuild] ++ rest.1, rest.2)
        | some m2 => (pre ++ [Ev.sleep w], Except.error m2)
    | AttemptOut.bodyTimeout =>
      if r = 0 then (pre, Except.ok none)
      else
        let rest := mrLoop url beh maxR r
        (pre ++ rest.1, rest.2)
    | AttemptOut.loaded c page =>
      let ch := cfHandle c
      if ch.2 then (pre ++ ch.1.map Ev.sleep ++ [Ev.sleep 2], Except.ok (some page))
      else (pre ++ ch.1.map Ev.sleep, Except.ok none)

/-- Number of navigation events in a trace. -/
def countNavs : List Ev → Nat
  | [] => 0
  | Ev.nav _ :: t => countNavs t + 1
  | _ :: t => countNavs t

/-- Whether a duration lies in the pacing interval. -/
def inPace (lo hi d : Rat) : Bool := decide (lo ≤ d) && decide (d ≤ hi)

/-- Every navigation in the trace is immediately preceded by a sleep of
a duration inside `[lo, hi]`. -/
def navPaced (lo hi : Rat) : List Ev → Bool
  | [] => true
  | Ev.nav _ :: _ => false
  | Ev.rebuild :: t => navPaced lo hi t
  | [Ev.sleep _] => true
  | Ev.sleep d :: Ev.nav _ :: t2 => inPace lo hi d && navPaced lo hi t2
  | Ev.sleep _ :: Ev.sleep d2 :: t2 => navPaced lo hi (Ev.sleep d2 :: t2)
  | Ev.sleep _ :: Ev.rebuild :: t2 => navPaced lo hi (Ev.rebuild :: t2)

/-! ## Form-driven address search (scraper.py `search_by_address`,
lines 266-378)

Only the navigation/timing behaviour is embedded: the homepage fetch
through `_make_request`, the waits and fixed sleeps around the form
interaction, the clear-and-type retry loops, the submit click (a
navigation), and the results wait.  The pure result-card matching on
the returned markup (lines 361-378) produces no events and is not
needed by the claims about this flow. -/

/-- One try of a clear-and-type loop (lines 297-317): the interaction
raises (sleep 1s and retry), types but reads back a mismatch (retry
without sleeping), or types and verifies (break). -/
inductive TypeTry
  | raises
  | mismatch
  | typed
deriving DecidableEq

/-- A `for _ in range(3)` clear-and-type loop; emits one 1s sleep per
raising try. -/
def typeLoop (t : Nat → TypeTry) : Nat → List Ev
  | 0 => []
  | k + 1 =>
    match t (3 - (k + 1)) with
    | TypeTry.typed => []
    | TypeTry.mismatch => typeLoop t k
    | TypeTry.raises => Ev.sleep 1 :: typeLoop t k

/-- The submit-click loop (lines 323-329): each raising try sleeps 1s;
a successful click navigates and breaks.  Returns events and whether a
click happened. -/
def clickLoop (cl : Nat → Bool) : Nat → List Ev × Bool
  | 0 => ([], false)
  | k + 1 =>
    if cl (3 - (k + 1)) then ([Ev.nav "form-submit"], true)
    else
      let r := clickLoop cl k
      (Ev.sleep 1 :: r.1, r.2)

/-- The results wait (lines 332-348): three tries; a timing-out try
other than the last sleeps 2s; three timeouts fail the search. -/
def resultsLoop (rw : Nat → Bool) : List Ev × Bool :=
  if rw 0 then ([], true)
  else if rw 1 then ([Ev.sleep 2], true)
  else if rw 2 then ([Ev.sleep 2, Ev.sleep 2], true)
  else ([Ev.sleep 2, Ev.sleep 2], false)

def baseUrl : String := "https://www.truepeoplesearch.com"

/-- Behaviour oracles for one `search_by_address` run. -/
structure FormB where
  home : Nat → AttemptB
  elemsOk : Bool
  addrTry : Nat → TypeTry
  cityTry : Nat → TypeTry
  clicks : Nat → Bool
  resReady : Nat → Bool

/-- The navigation/timing behaviour of `search_by_address`: homepage
fetch via `_make_request` (line 269, outside any try, so its exceptions
propagate), then — when markup came back — the element waits (a raising
wait is caught at line 351 and returns `None`), the fixed 2s sleep, the
two typing loops, the fixed 1s sleep, the click loop and the results
wait. -/
def searchByAddressNav (maxR : Nat) (fb : FormB) :
    List Ev × Except String (Option String) :=
  let home := mrLoop baseUrl fb.home maxR maxR
  match home.2 with
  | Except.error m => (home.1, Except.error m)
  | Except.ok none => (home.1, Except.ok none)
  | Except.ok (some _) =>
    if fb.elemsOk then
      let evs := home.1 ++ [Ev.sleep 2] ++ typeLoop fb.addrTry 3
        ++ typeLoop fb.cityTry 3 ++ [Ev.sleep 1] ++ (clickLoop fb.clicks 3).1
      let res := resultsLoop fb.resReady
      if res.2 then (evs ++ res.1, Except.ok (some "results-page"))
      else (evs ++ res.1, Except.ok none)
    else (home.1, Except.ok none)

/-! ## Request-response path (api.py)

`SearchResult`, the name-query parsing and URL assembly of
`search_by_name` (lines 458-539), and the `/search` endpoint handler
(lines 42-99).  Percent-encoding via `quote_plus` is order- and
content-preserving serialization of the two query fields, so the built
request is modelled structurally as the pair of field values. -/

/-- api.py `PhoneData` dict entries built at lines 415-441. -/
structure PhoneData where
  number : String
  ptype : String
  last_reported : String
  provider : String
deriving DecidableEq

/-- api.py `SearchResult` (lines 114-135). -/
structure SearchResult where
  search_option : String
  input_given : String
  first_name : Option String
  last_name : Option String
  age : Option String
  lives_in : Option String
  street_address : Option String
  address_locality : Option String
  address_region : Option String
  postal_code : Option String
  country_name : Option String
  emails : List String
  phones : List PhoneData
  person_link : Option String
  error : Option String
deriving DecidableEq

/-- An all-default `SearchResult` carrying only an error, as built at
api.py lines 477-481, 489-493 and 532-536. -/
def mkErrorResult (opt inp err : String) : SearchResult :=
  { search_option := opt, input_given := inp
    first_name := none, last_name := none, age := none, lives_in := none
    street_address := none, address_locality := none, address_region := none
    postal_code := none, country_name := none
    emails := [], phones := [], person_link := none, error := some err }

/-- The `"Name; City, State"` parsing at api.py lines 464-467: the split
happens only when the name contains a `;` and the explicit `city_state`
argument is falsy. -/
def parseNameQuery (name : String) (city_state : Option String) :
    String × Option String :=
  if strContains name ";" && !(pyTruthy city_state) then
    let p := splitOnce name (Char.ofNat 59)
    (pyStrip p.1, p.2.map pyStrip)
  else (name, city_state)

/-- The two query-string fields of the name-search request (lines
470-472); `citystatezip` is attached only when the (possibly parsed)
city/state is truthy. -/
structure NameQuery where
  nameParam : String
  cityParam : Option String
deriving DecidableEq

/-- Query assembly for a name search. -/
def buildNameQuery (name : String) (city_state : Option String) : NameQuery :=
  let p := parseNameQuery name city_state
  { nameParam := p.1
    cityParam := if pyTruthy p.2 then p.2 else none }

/-- The dict returned by api.py `_extract_profile_info` on a truthy
page (lines 344-456), as consumed by `search_by_name`. -/
structure ProfileInfoA where
  first_name : Option String
  last_name : Option String
  age : Option String
  lives_in : Option String
  street_address : Option String
  address_locality : Option String
  address_region : Option String
  postal_code : Option String
  country_name : Option String
  emails : List String
  phones : List PhoneData
deriving DecidableEq

/-- Behaviour oracles for one `search_by_name` run: whether the search
page fetch returned truthy markup, the detail-link of each result card
(in document order, `none` when the anchor or its href is missing), and
the profile info per profile link (`none` when `_extract_profile_info`
returned the falsy empty dict). -/
structure NameSearchB where
  html : Bool
  cards : List (Option String)
  profileOf : String → Option ProfileInfoA

/-- Success record assembly at api.py lines 511-526. -/
def mkNameResult (inp : String) (info : ProfileInfoA) (link : String) : SearchResult :=
  { search_option := "Name Search", input_given := inp
    first_name := info.first_name, last_name := info.last_name
    age := info.age, lives_in := info.lives_in
    street_address := info.street_address
    address_locality := info.address_locality
    address_region := info.address_region
    postal_code := info.postal_code, country_name := info.country_name
    emails := info.emails, phones := info.phones
    person_link := some link, error := none }

/-- Processing of one result card (api.py lines 497-528): skip cards
without a detail link and cards whose profile extraction returned the
falsy empty dict, otherwise append the assembled success record. -/
def nameCardStep (inp : String) (profileOf : String → Option ProfileInfoA)
    (acc : List SearchResult) (card : Option String) : List SearchResult :=
  match card with
  | none => acc
  | some href =>
    let link := baseUrl ++ href
    match profileOf link with
    | none => acc
    | some info => acc ++ [mkNameResult inp info link]

/-- api.py `search_by_name` (lines 458-539): parse, fetch, then either
an error record or up to `maxR` success records, with link-less cards
and empty-dict profiles skipped. -/
def searchByName (name : String) (city_state : Option String) (maxR : Nat)
    (b : NameSearchB) : List SearchResult :=
  let p := parseNameQuery name city_state
  let inp := p.1 ++ (match (if pyTruthy p.2 then p.2 else none) with
    | some c => "; " ++ c
    | none => "")
  if !b.html then [mkErrorResult "Name Search" inp "Failed to retrieve search results"]
  else if b.cards.isEmpty then [mkErrorResult "Name Search" inp "No results found"]
  else
    let results := (b.cards.take maxR).foldl (nameCardStep inp b.profileOf) []
    if results.isEmpty then
      [mkErrorResult "Name Search" inp "No valid results could be processed"]
    else results

/-! ## The `/search` endpoint (api.py lines 42-99)

The `TruePeopleSearchAPI` class body (lines 178-539) defines exactly
these methods; `search_by_address` and `search_by_phone` appear only
inside `if __name__ == "__main__":` blocks after `app.run(...)`
(lines 548 and 641), so they never become attributes of the class and
any `api_instance.search_by_address` / `.search_by_phone` lookup raises
`AttributeError`.  The endpoint's whole body runs under
`try/except Exception`, which turns any exception into a 500 error
response. -/

/-- The attributes the class body defines. -/
def classMethods : List String :=
  ["__init__", "_setup_driver", "_add_delay", "_make_request", "__del__",
   "_extract_profile_info", "search_by_name"]

/-- Functions defined inside the `if __name__ == "__main__":` blocks
after `app.run`, hence never reachable as instance attributes. -/
def mainGuardMethods : List String := ["search_by_address", "search_by_phone"]

/-- Attribute lookup on the api instance: `none` when the attribute
exists, otherwise the `AttributeError` message. -/
def attrError (m : String) : Option String :=
  if m ∈ classMethods then none
  else some ("AttributeError: TruePeopleSearchAPI object has no attribute " ++ m)

/-- The parsed JSON body of a `/search` request; an absent or falsy key
is the empty list. -/
structure SearchRequestData where
  nameQs : List String
  addressQs : List String
  phoneQs : List String
  maxResults : Nat
deriving DecidableEq

/-- The endpoint's response: a JSON body of per-type flattened result
sections, a 400 for a missing body, or the 500 produced by the
`except Exception` handler. -/
inductive EndpointResponse
  | ok (body : List (String × List SearchResult))
  | clientError (msg : String)
  | serverError (msg : String)

/-- One search-type section: attribute lookup followed by one search
call per query string, concatenating the returned records. -/
def runSection (meth : String) (f : String → Nat → List SearchResult)
    (qs : List String) (maxR : Nat) : Except String (List SearchResult) :=
  match attrError meth with
  | some e => Except.error e
  | none => Except.ok (qs.flatMap fun q => f q maxR)

/-- Labels the section's records under its key of the results dict. -/
def tagSection (label : String) (e : Except String (List SearchResult)) :
    Except String (List (String × List SearchResult)) :=
  match e with
  | Except.ok rs => Except.ok [(label, rs)]
  | Except.error m => Except.error m

/-- Processing of one search type at the endpoint: skipped entirely when
its query list is absent/falsy, otherwise dispatched through attribute
lookup and per-query calls. -/
def trySection (label meth : String) (f : String → Nat → List SearchResult)
    (qs : List String) (maxR : Nat) :
    Except String (List (String × List SearchResult)) :=
  if qs.isEmpty then Except.ok []
  else tagSection label (runSection meth f qs maxR)

/-- The `/search` handler: name, address and phone sections processed in
that order inside one `try`; the first exception aborts the whole
request with a 500 error response. -/
def searchEndpoint (req : Option SearchRequestData)
    (nameSearch addrSearch phoneSearch : String → Nat → List SearchResult) :
    EndpointResponse :=
  match req with
  | none => EndpointResponse.clientError "No JSON data provided"
  | some d =>
    match trySection "name_results" "search_by_name" nameSearch d.nameQs d.maxResults with
    | Except.error e => EndpointResponse.serverError e
    | Except.ok s1 =>
      match trySection "address_results" "search_by_address" addrSearch d.addressQs d.maxResults with
      | Except.error e => EndpointResponse.serverError e
      | Except.ok s2 =>
        match trySection "phone_results" "search_by_phone" phoneSearch d.phoneQs d.maxResults with
        | Except.error e => EndpointResponse.serverError e
        | Except.ok s3 => EndpointResponse.ok (s1 ++ s2 ++ s3)

/-! ## Concrete inputs used by counterexamples and witnesses -/

def sampleOwner1 : Owner := { first_name := "Jane", last_name := "Doe", row_index := 0 }

def sampleOwner2 : Owner := { first_name := "John", last_name := "Smith", row_index := 1 }

def sampleInfo : ProfileInfoS :=
  { current_address := none, phone_numbers := ["555-1234"], emails := ["a@x.com"] }

/-- Owner behaviour: the form search finds no profile. -/
def obNotFound : OwnerB :=
  { search := SearchO.notFound, extract := ExtractO.ok none, save := SaveO.ok }

/-- Owner behaviour: search and extraction succeed, the partial save succeeds. -/
def obSuccess : OwnerB :=
  { search := SearchO.found "https://www.truepeoplesearch.com/find/person/p1"
    extract := ExtractO.ok (some sampleInfo), save := SaveO.ok }

/-- Owner behaviour: search and extraction succeed but the partial
`save_results` write raises. -/
def obSaveFail : OwnerB :=
  { search := SearchO.found "https://www.truepeoplesearch.com/find/person/p1"
    extract := ExtractO.ok (some sampleInfo), save := SaveO.raise "disk full" }

/-- Fetch behaviour: every attempt loads a page whose URL reads as a
challenge at every check. -/
def behChallengeForever : Nat → AttemptB :=
  fun _ => { pacing := 3, outcome := AttemptOut.loaded (fun _ => true) "challenge-page" }

/-- Fetch behaviour: the first attempt hits a transient error and the
session rebuild itself raises. -/
def behRebuildFails : Nat → AttemptB :=
  fun a =>
    if a = 0 then
      { pacing := 3
        outcome := AttemptOut.exn "connection reset" 2 (some "SessionUnavailable: could not start Chrome") }
    else { pacing := 3, outcome := AttemptOut.loaded (fun _ => false) "page" }

/-- Fetch behaviour: the first attempt loads cleanly. -/
def behClean : Nat → AttemptB :=
  fun _ => { pacing := 3, outcome := AttemptOut.loaded (fun _ => false) "page" }

/-- Form-search behaviour: everything succeeds on the first try. -/
def formHappy : FormB :=
  { home := fun _ => { pacing := 5, outcome := AttemptOut.loaded (fun _ => false) "homepage" }
    elemsOk := true
    addrTry := fun _ => TypeTry.typed
    cityTry := fun _ => TypeTry.typed
    clicks := fun _ => true
    resReady := fun _ => true }

/-- A phone block without the possible-primary caption. -/
def blockPlain : PhoneBlock :=
  { hasLink := true, span := some "111-222-3333"
    info := some "Landline Last reported Jan 2020" }

/-- A phone block carrying the possible-primary caption. -/
def blockPrimary : PhoneBlock :=
  { hasLink := true, span := some "444-555-6666"
    info := some "Possible Primary Phone Wireless" }

/-- Name-search behaviour: the results-page fetch fails. -/
def nsbNoHtml : NameSearchB :=
  { html := false, cards := [], profileOf := fun _ => none }

/-! ## Theorems settling the claims -/

/-- `search_by_name` is a class attribute. -/
theorem attrError_name : attrError "search_by_name" = none := by decide

/-- Address dispatch fails attribute lookup. -/
theorem attrError_address :
    attrError "search_by_address"
      = some "AttributeError: TruePeopleSearchAPI object has no attribute search_by_address" := by
  decide

/-- Phone dispatch fails attribute lookup. -/
theorem attrError_phone :
    attrError "search_by_phone"
      = some "AttributeError: TruePeopleSearchAPI object has no attribute search_by_phone" := by
  decide

/-- The name section of the endpoint never raises. -/
theorem trySection_name_ok (f : String → Nat → List SearchResult)
    (qs : List String) (maxR : Nat) :
    ∃ s, trySection "name_results" "search_by_name" f qs maxR = Except.ok s := by
  by_cases h : qs.isEmpty
  · exact ⟨[], by simp [trySection, h]⟩
  · refine ⟨[("name_results", qs.flatMap fun q => f q maxR)], ?_⟩
    simp [trySection, h, tagSection, runSection, attrError_name]

/-- A non-empty address section always raises `AttributeError`. -/
theorem trySection_address_err (f : String → Nat → List SearchResult)
    (qs : List String) (maxR : Nat) (h : qs.isEmpty = false) :
    trySection "address_results" "search_by_address" f qs maxR
      = Except.error "AttributeError: TruePeopleSearchAPI object has no attribute search_by_address" := by
  simp [trySection, h, tagSection, runSection, attrError_address]

/-- A non-empty phone section always raises `AttributeError`. -/
theorem trySection_phone_err (f : String → Nat → List SearchResult)
    (qs : List String) (maxR : Nat) (h : qs.isEmpty = false) :
    trySection "phone_results" "search_by_phone" f qs maxR
      = Except.error "AttributeError: TruePeopleSearchAPI object has no attribute search_by_phone" := by
  simp [trySection, h, tagSection, runSection, attrError_phone]

/-- Claim C1: every `/search` request carrying an address query or a phone
query fails: `search_by_address` and `search_by_phone` are defined inside
`if __name__ == "__main__"` blocks after `app.run` and never become
attributes of `TruePeopleSearchAPI`, so the dispatch raises
`AttributeError` and the endpoint converts it into an error response
instead of returning any flattened records. -/
theorem claim1_dispatch_error (d : SearchRequestData)
    (ns as ps : String → Nat → List SearchResult)
    (h : d.addressQs ≠ [] ∨ d.phoneQs ≠ []) :
    ("search_by_address" ∉ classMethods ∧ "search_by_phone" ∉ classMethods) ∧
    ∃ msg, searchEndpoint (some d) ns as ps = EndpointResponse.serverError msg := by
  refine ⟨⟨by decide, by decide⟩, ?_⟩
  obtain ⟨s1, hs1⟩ := trySection_name_ok ns d.nameQs d.maxResults
  by_cases hA : d.addressQs.isEmpty
  · have hp : d.phoneQs ≠ [] := by
      rcases h with ha | hp
      · exact absurd (List.isEmpty_iff.mp hA) ha
      · exact hp
    have hpe : d.phoneQs.isEmpty = false := by
      cases hP : d.phoneQs with
      | nil => exact absurd hP hp
      | cons x xs => rfl
    have hAe : d.addressQs.isEmpty = true := hA
    refine ⟨"AttributeError: TruePeopleSearchAPI object has no attribute search_by_phone", ?_⟩
    simp only [searchEndpoint, hs1]
    rw [show trySection "address_results" "search_by_address" as d.addressQs d.maxResults
        = Except.ok [] by simp [trySection, hAe]]
    rw [trySection_phone_err ps d.phoneQs d.maxResults hpe]
  · have hae : d.addressQs.isEmpty = false := by
      cases hA2 : d.addressQs.isEmpty
      · rfl
      · exact absurd hA2 hA
    refine ⟨"AttributeError: TruePeopleSearchAPI object has no attribute search_by_address", ?_⟩
    simp only [searchEndpoint, hs1]
    rw [trySection_address_err as d.addressQs d.maxResults hae]

/-- Witness for C1 at a concrete request. -/
theorem claim1_witness :
    ((["1 Main St; Springfield, IL"] : List String) ≠ [] ∨ ([] : List String) ≠ []) ∧
    ∃ msg, searchEndpoint
        (some { nameQs := [], addressQs := ["1 Main St; Springfield, IL"], phoneQs := []
                maxResults := 1 })
        (fun _ _ => []) (fun _ _ => []) (fun _ _ => [])
      = EndpointResponse.serverError msg :=
  ⟨Or.inl (by decide),
    (claim1_dispatch_error
      { nameQs := [], addressQs := ["1 Main St; Springfield, IL"], phoneQs := []
        maxResults := 1 }
      (fun _ _ => []) (fun _ _ => []) (fun _ _ => []) (Or.inl (by decide))).2⟩

/-- Claim C9 counterexample: with an explicit locality supplied, a name
containing `;` is not split at all — the primary keeps its
`; city, state` suffix, contradicting the claim that every such name is
split once into a name part and a suffix. -/
theorem claim9_counterexample :
    parseNameQuery "Jane Doe; Springfield, IL" (some "Boston, MA")
      = ("Jane Doe; Springfield, IL", some "Boston, MA") ∧
    buildNameQuery "Jane Doe; Springfield, IL" (some "Boston, MA")
      = { nameParam := "Jane Doe; Springfield, IL", cityParam := some "Boston, MA" } ∧
    "Jane Doe; Springfield, IL" ≠ "Jane Doe" := by
  refine ⟨by decide, by decide, by decide⟩

/-- Claim C9 (amended): the `;`-split happens only when no truthy explicit
locality argument is supplied; a truthy explicit locality is used as the
citystatezip parameter while the primary is left unsplit.  With no
explicit locality the name is split once at the first `;`, both parts
trimmed.  Scenario: "Jane Doe; Springfield, IL" with no explicit locality
yields primary "Jane Doe" and locality "Springfield, IL". -/
theorem claim9_name_query_builder (name : String) (cs : Option String) :
    (pyTruthy cs = true → parseNameQuery name cs = (name, cs) ∧
      buildNameQuery name cs = { nameParam := name, cityParam := cs }) ∧
    (pyTruthy cs = false → strContains name ";" = true →
      parseNameQuery name cs
        = (pyStrip (splitOnce name (Char.ofNat 59)).1,
           (splitOnce name (Char.ofNat 59)).2.map pyStrip)) ∧
    buildNameQuery "Jane Doe; Springfield, IL" none
      = { nameParam := "Jane Doe", cityParam := some "Springfield, IL" } := by
  refine ⟨?_, ?_, by decide⟩
  · intro h
    constructor
    · simp [parseNameQuery, h]
    · simp [buildNameQuery, parseNameQuery, h]
  · intro h1 h2
    simp [parseNameQuery, h1, h2]

/-- Witness for C9 at concrete inputs. -/
theorem claim9_witness :
    parseNameQuery "Jane Doe" (some "Springfield, IL")
        = ("Jane Doe", some "Springfield, IL") ∧
    buildNameQuery "Jane Doe" (some "Springfield, IL")
        = { nameParam := "Jane Doe", cityParam := some "Springfield, IL" } :=
  (claim9_name_query_builder "Jane Doe" (some "Springfield, IL")).1 (by decide)

/-- No code path of the scraper extraction assigns `current_address`. -/
theorem scraperExtract_current_address_none (html : Option Markup)
    (i : ProfileInfoS) (hx : scraperExtractProfileInfo html = Except.ok (some i)) :
    i.current_address = none := by
  cases html with
  | none => simp [scraperExtractProfileInfo] at hx
  | some m =>
    cases hps : scraperPhoneScan m.phoneSections with
    | none => simp [scraperExtractProfileInfo, hps] at hx
    | some ph =>
      simp [scraperExtractProfileInfo, hps] at hx
      rw [← hx]

/-- Claim C10: the batch-path profile extraction initialises
`current_address` to None and no code path ever assigns it, so every
extraction result — and hence the Current Address column of every batch
output row, successful or not — is empty. -/
theorem claim10_current_address_always_none
    (o : Owner) (s : SearchO) (html : Option Markup) (sv : SaveO)
    (results : List ScrapingResult) :
    (∀ i, scraperExtractProfileInfo html = Except.ok (some i) →
      i.current_address = none) ∧
    (processOwner o { search := s, extract := ExtractO.ofHtml html, save := sv }
        results).1.current_address = none ∧
    (toRow (processOwner o { search := s, extract := ExtractO.ofHtml html, save := sv }
        results).1).currentAddress = none := by
  have hext : ∀ i, scraperExtractProfileInfo html = Except.ok (some i) →
      i.current_address = none := fun i h => scraperExtract_current_address_none html i h
  refine ⟨hext, ?_⟩
  have hmain : (processOwner o { search := s, extract := ExtractO.ofHtml html, save := sv }
      results).1.current_address = none := by
    cases s with
    | raise m => simp [processOwner]
    | notFound => simp [processOwner]
    | found url =>
      cases hr : scraperExtractProfileInfo html with
      | error m =>
        simp [processOwner, ExtractO.ofHtml, hr]
      | ok info =>
        cases info with
        | none =>
          by_cases hres : results.isEmpty
          · simp [processOwner, ExtractO.ofHtml, hr, hres]
          · cases sv with
            | ok => simp [processOwner, ExtractO.ofHtml, hr, hres]
            | raise m => simp [processOwner, ExtractO.ofHtml, hr, hres]
        | some i =>
          have hi : i.current_address = none := hext i hr
          by_cases hres : results.isEmpty
          · simp [processOwner, ExtractO.ofHtml, hr, hres, hi]
          · cases sv with
            | ok => simp [processOwner, ExtractO.ofHtml, hr, hres, hi]
            | raise m => simp [processOwner, ExtractO.ofHtml, hr, hres, hi]
  exact ⟨hmain, by rw [toRow, hmain]⟩

/-- Witness for C10 at a concrete markup, behaviour and owner: the
extraction of a page with one phone block and one email block succeeds
and carries no current address, and the batch record built from it has
an empty Current Address column. -/
theorem claim10_witness :
    scraperExtractProfileInfo
        (some { phoneSections := [blockPlain], emailDivs := ["a@x.com"] })
      = Except.ok (some { current_address := none
                          phone_numbers := ["111-222-3333"]
                          emails := ["a@x.com"] }) ∧
    ({ current_address := none, phone_numbers := ["111-222-3333"]
       emails := ["a@x.com"] } : ProfileInfoS).current_address = none ∧
    (processOwner sampleOwner1
        { search := SearchO.found "https://u"
          extract := ExtractO.ofHtml
            (some { phoneSections := [blockPlain], emailDivs := ["a@x.com"] })
          save := SaveO.ok } []).1.current_address = none ∧
    (toRow (processOwner sampleOwner1
        { search := SearchO.found "https://u"
          extract := ExtractO.ofHtml
            (some { phoneSections := [blockPlain], emailDivs := ["a@x.com"] })
          save := SaveO.ok } []).1).currentAddress = none :=
  ⟨by rfl,
    (claim10_current_address_always_none sampleOwner1 (SearchO.found "https://u")
      (some { phoneSections := [blockPlain], emailDivs := ["a@x.com"] })
      SaveO.ok []).1 _ (by rfl),
    (claim10_current_address_always_none sampleOwner1 (SearchO.found "https://u")
      (some { phoneSections := [blockPlain], emailDivs := ["a@x.com"] })
      SaveO.ok []).2.1,
    (claim10_current_address_always_none sampleOwner1 (SearchO.found "https://u")
      (some { phoneSections := [blockPlain], emailDivs := ["a@x.com"] })
      SaveO.ok []).2.2⟩

/-- Records accumulated by the card fold all carry `error = none`. -/
theorem nameCardStep_error_none (inp : String)
    (profileOf : String → Option ProfileInfoA) :
    ∀ (cards : List (Option String)) (acc : List SearchResult),
      (∀ r ∈ acc, r.error = none) →
      ∀ r ∈ cards.foldl (nameCardStep inp profileOf) acc, r.error = none := by
  intro cards
  induction cards with
  | nil => intro acc hacc r hr; exact hacc r hr
  | cons card rest ih =>
    intro acc hacc r hr
    refine ih (nameCardStep inp profileOf acc card) ?_ r hr
    intro x hx
    cases card with
    | none => exact hacc x (by simpa [nameCardStep] using hx)
    | some href =>
      cases hpf : profileOf (baseUrl ++ href) with
      | none => exact hacc x (by simpa [nameCardStep, hpf] using hx)
      | some info =>
        rcases (by simpa [nameCardStep, hpf] using hx :
            x ∈ acc ∨ x = mkNameResult inp info (baseUrl ++ href)) with h | h
        · exact hacc x h
        · rw [h]; rfl

/-- Claim C2 (amended): a produced record with `error` set has every
optional identity/address/contact field absent, in the request-response
path unconditionally, and in the batch path whenever the error did not
come from a raising partial save — when `save_results` raises after a
successful extraction, the except handler stamps the error onto the
already-populated record, which then carries both its fields and the
error. -/
theorem claim2_error_records_have_no_fields :
    (∀ (o : Owner) (b : OwnerB) (results : List ScrapingResult),
      (∀ m, b.save ≠ SaveO.raise m) →
      ((processOwner o b results).1.error).isSome = true →
      (processOwner o b results).1.current_address = none ∧
      (processOwner o b results).1.phone_numbers = [] ∧
      (processOwner o b results).1.emails = []) ∧
    (∀ (name : String) (cs : Option String) (maxR : Nat) (b : NameSearchB)
      (r : SearchResult), r ∈ searchByName name cs maxR b →
      (r.error).isSome = true →
      r.first_name = none ∧ r.last_name = none ∧ r.age = none ∧
      r.lives_in = none ∧ r.street_address = none ∧ r.address_locality = none ∧
      r.address_region = none ∧ r.postal_code = none ∧ r.country_name = none ∧
      r.person_link = none ∧ r.emails = [] ∧ r.phones = []) := by
  constructor
  · rintro o ⟨bs, be, bsv⟩ results hsave herr
    cases bs with
    | raise m => simp [processOwner]
    | notFound => simp [processOwner]
    | found url =>
      cases be with
      | raise m => simp [processOwner]
      | ok info =>
        by_cases hres : results.isEmpty
        · simp [processOwner, hres] at herr
        · cases bsv with
          | ok => simp [processOwner, hres] at herr
          | raise m => exact absurd rfl (hsave m)
  · intro name cs maxR b r hr herr
    rw [searchByName] at hr
    by_cases hh : !b.html
    · rw [if_pos hh] at hr
      rw [List.mem_singleton.mp hr]
      exact ⟨rfl, rfl, rfl, rfl, rfl, rfl, rfl, rfl, rfl, rfl, rfl, rfl⟩
    · rw [if_neg hh] at hr
      by_cases hc : b.cards.isEmpty
      · rw [if_pos hc] at hr
        rw [List.mem_singleton.mp hr]
        exact ⟨rfl, rfl, rfl, rfl, rfl, rfl, rfl, rfl, rfl, rfl, rfl, rfl⟩
      · rw [if_neg hc] at hr
        by_cases hres :
            ((b.cards.take maxR).foldl
              (nameCardStep
                ((parseNameQuery name cs).1 ++
                  (match (if pyTruthy (parseNameQuery name cs).2
                      then (parseNameQuery name cs).2 else none) with
                    | some c => "; " ++ c
                    | none => "")) b.profileOf) []).isEmpty
        · rw [if_pos hres] at hr
          rw [List.mem_singleton.mp hr]
          exact ⟨rfl, rfl, rfl, rfl, rfl, rfl, rfl, rfl, rfl, rfl, rfl, rfl⟩
        · rw [if_neg hres] at hr
          have : r.error = none :=
            nameCardStep_error_none _ b.profileOf (b.cards.take maxR) []
              (by intro x hx; exact absurd hx (List.not_mem_nil x)) r hr
          rw [this] at herr
          simp at herr

/-- Witness for C2 at concrete batch and request-response inputs. -/
theorem claim2_witness :
    ((processOwner sampleOwner1 obNotFound []).1.current_address = none ∧
      (processOwner sampleOwner1 obNotFound []).1.phone_numbers = [] ∧
      (processOwner sampleOwner1 obNotFound []).1.emails = []) ∧
    (mkErrorResult "Name Search" "Jane Doe"
        "Failed to retrieve search results").first_name = none :=
  ⟨claim2_error_records_have_no_fields.1 sampleOwner1 obNotFound []
      (fun m h => SaveO.noConfusion h) (by decide),
    (claim2_error_records_have_no_fields.2 "Jane Doe" none 1 nsbNoHtml
      (mkErrorResult "Name Search" "Jane Doe" "Failed to retrieve search results")
      (by decide) (by decide)).1⟩

/-- Claim C2 counterexample: when the partial save raises after a
successful extraction, the appended batch record carries the error and
the extracted phone and email lists at the same time. -/
theorem claim2_counterexample :
    (processOwner sampleOwner2 obSaveFail
        [{ owner := sampleOwner1, current_address := none, phone_numbers := []
           emails := [], error := some "Profile not found" }]).1.error
      = some "disk full" ∧
    (processOwner sampleOwner2 obSaveFail
        [{ owner := sampleOwner1, current_address := none, phone_numbers := []
           emails := [], error := some "Profile not found" }]).1.phone_numbers
      = ["555-1234"] ∧
    (processOwner sampleOwner2 obSaveFail
        [{ owner := sampleOwner1, current_address := none, phone_numbers := []
           emails := [], error := some "Profile not found" }]).1.emails
      = ["a@x.com"] := by
  refine ⟨by decide, by decide, by decide⟩

/-- The final result list extends the accumulator. -/
theorem runBatch_fst_prefix (input : List (Owner × OwnerB))
    (acc : List ScrapingResult) :
    ∃ d, (runBatch input acc).1 = acc ++ d := by
  induction input generalizing acc with
  | nil => exact ⟨[], by simp [runBatch]⟩
  | cons ob rest ih =>
    obtain ⟨o, b⟩ := ob
    obtain ⟨d, hd⟩ := ih (acc ++ [(processOwner o b acc).1])
    exact ⟨(processOwner o b acc).1 :: d, by simp [runBatch, hd]⟩

/-- A snapshot written while processing one owner is exactly the
accumulated list passed in — the freshly built record is not in it. -/
theorem processOwner_snap (o : Owner) (b : OwnerB) (acc snap : List ScrapingResult)
    (h : (processOwner o b acc).2 = some snap) : snap = acc := by
  obtain ⟨bs, be, bsv⟩ := b
  cases bs with
  | raise m => simp [processOwner] at h
  | notFound => simp [processOwner] at h
  | found url =>
    cases be with
    | raise m => simp [processOwner] at h
    | ok info =>
      by_cases hres : acc.isEmpty
      · simp [processOwner, hres] at h
      · cases bsv with
        | ok =>
          simp [processOwner, hres] at h
          exact h.symm
        | raise m => simp [processOwner, hres] at h

/-- Every checkpoint produced by a batch run is a strict prefix of the
final result list, cut no later than the accumulator it started from. -/
theorem runBatch_saves_take (input : List (Owner × OwnerB)) :
    ∀ (acc : List ScrapingResult) (s : List ScrapingResult),
      s ∈ (runBatch input acc).2 →
      ∃ k, acc.length ≤ k ∧ k < (runBatch input acc).1.length ∧
        s = (runBatch input acc).1.take k := by
  induction input with
  | nil => intro acc s hs; simp [runBatch] at hs
  | cons ob rest ih =>
    intro acc s hs
    obtain ⟨o, b⟩ := ob
    rw [runBatch] at hs
    rcases List.mem_append.mp hs with h | h
    · have hsnap : (processOwner o b acc).2 = some s := by
        cases h2 : (processOwner o b acc).2 with
        | none => rw [h2] at h; simp at h
        | some snap =>
          rw [h2] at h
          simp at h
          rw [h]
      have hseq : s = acc := processOwner_snap o b acc s hsnap
      obtain ⟨d, hd⟩ := runBatch_fst_prefix rest (acc ++ [(processOwner o b acc).1])
      refine ⟨acc.length, le_refl _, ?_, ?_⟩
      · rw [runBatch]
        simp only [hd]
        simp [List.length_append]
      · rw [runBatch]
        simp only [hd, hseq]
        rw [List.append_assoc]
        exact (List.take_left acc _).symm
    · obtain ⟨k, hk1, hk2, hk3⟩ := ih (acc ++ [(processOwner o b acc).1]) s h
      refine ⟨k, ?_, ?_, ?_⟩
      · calc acc.length ≤ (acc ++ [(processOwner o b acc).1]).length := by
              simp [List.length_append]
          _ ≤ k := hk1
      · rw [runBatch]; exact hk2
      · rw [runBatch]; exact hk3

/-- Claim C5 (amended): every partial checkpoint written during a batch
run equals the results accumulated before the current record, a strict
prefix of the final result list — the just-completed record is written
only by the next checkpoint (or the final save), and no checkpoint at
all is written after the first success of a run, so a crash right after
a success can lose that completed record in addition to any in-flight
one. -/
theorem claim5_checkpoint_strict_prefix (input : List (Owner × OwnerB))
    (s : List ScrapingResult) (hs : s ∈ (runBatch input []).2) :
    ∃ k, k < (runBatch input []).1.length ∧ s = (runBatch input []).1.take k := by
  obtain ⟨k, _, hk2, hk3⟩ := runBatch_saves_take input [] s hs
  exact ⟨k, hk2, hk3⟩

/-- Witness for C5 at a concrete two-owner run. -/
theorem claim5_witness :
    ∃ k, k < (runBatch [(sampleOwner1, obNotFound), (sampleOwner2, obSuccess)] []).1.length ∧
      [{ owner := sampleOwner1, current_address := none, phone_numbers := []
         emails := [], error := some "Profile not found" }]
        = (runBatch [(sampleOwner1, obNotFound), (sampleOwner2, obSuccess)] []).1.take k :=
  claim5_checkpoint_strict_prefix
    [(sampleOwner1, obNotFound), (sampleOwner2, obSuccess)]
    [{ owner := sampleOwner1, current_address := none, phone_numbers := []
       emails := [], error := some "Profile not found" }]
    (by decide)

/-- Claim C5 counterexample: in a run where the first owner fails and the
second succeeds, the only checkpoint (written during the second owner)
contains just the first record — the just-completed successful record is
missing from it, so a crash immediately after that success loses it. -/
theorem claim5_counterexample :
    (runBatch [(sampleOwner1, obNotFound), (sampleOwner2, obSuccess)] []).2
      = [[{ owner := sampleOwner1, current_address := none, phone_numbers := []
            emails := [], error := some "Profile not found" }]] ∧
    (runBatch [(sampleOwner1, obNotFound), (sampleOwner2, obSuccess)] []).1
      = [{ owner := sampleOwner1, current_address := none, phone_numbers := []
           emails := [], error := some "Profile not found" },
         { owner := sampleOwner2, current_address := none
           phone_numbers := ["555-1234"], emails := ["a@x.com"], error := none }] ∧
    ({ owner := sampleOwner2, current_address := none
       phone_numbers := ["555-1234"], emails := ["a@x.com"]
       error := none } : ScrapingResult)
      ∉ [{ owner := sampleOwner1, current_address := none, phone_numbers := []
           emails := [], error := some "Profile not found" }] := by
  refine ⟨by decide, by decide, by decide⟩

/-- Claim C3 (amended): `_make_request` catches every exception raised
inside an attempt and converts it into a retry or the typed absent
value; as long as no session rebuild in the except handler fails, no
exception escapes the function.  (The unguarded `self._setup_driver()`
on the rebuild path is the sole escape hatch.) -/
theorem claim3_fetch_no_raise (url : String) (beh : Nat → AttemptB) (maxR : Nat)
    (r : Nat)
    (h : ∀ a m back msg, (beh a).outcome ≠ AttemptOut.exn m back (some msg)) :
    ∃ o, (mrLoop url beh maxR r).2 = Except.ok o := by
  induction r with
  | zero => exact ⟨none, rfl⟩
  | succ r ih =>
    cases ho : (beh (maxR - (r + 1))).outcome with
    | exn m back rb =>
      cases rb with
      | none =>
        by_cases hr : r = 0
        · subst hr; exact ⟨none, by simp [mrLoop, ho]⟩
        · obtain ⟨o, hO⟩ := ih
          exact ⟨o, by simp [mrLoop, ho, hr, hO]⟩
      | some m2 => exact absurd ho (h _ m back m2)
    | bodyTimeout =>
      by_cases hr : r = 0
      · subst hr; exact ⟨none, by simp [mrLoop, ho]⟩
      · obtain ⟨o, hO⟩ := ih
        exact ⟨o, by simp [mrLoop, ho, hr, hO]⟩
    | loaded c page =>
      by_cases hch : (cfHandle c).2
      · exact ⟨some page, by simp [mrLoop, ho, hch]⟩
      · exact ⟨none, by simp [mrLoop, ho, hch]⟩

/-- Witness for C3 at a behaviour whose attempts never hit the rebuild
path. -/
theorem claim3_witness :
    ∃ o, (mrLoop "https://u" behClean 3 3).2 = Except.ok o :=
  claim3_fetch_no_raise "https://u" behClean 3 3
    (fun _ _ _ _ h => AttemptOut.noConfusion h)

/-- Claim C3 counterexample: a transient error on the first attempt
followed by a failing session rebuild makes `_make_request` propagate
the `_setup_driver` exception to its caller. -/
theorem claim3_counterexample :
    (mrLoop "https://u" behRebuildFails 3 3).2
      = Except.error "SessionUnavailable: could not start Chrome" := by
  rfl

/-- Claim C4 (amended): an attempt that resolves to a challenge URL that
never clears sleeps 5s, polls six more times at 5s intervals — 35s in
total, within the budget — and then the *whole fetch* returns the typed
absent value at once: only this attempt's navigation happens and the
remaining retry attempts never run. -/
theorem claim4_challenge_timeout_aborts_fetch
    (url page : String) (beh : Nat → AttemptB) (maxR r : Nat)
    (pac : Rat) (c : Nat → Bool) (hc : ∀ n, c n = true)
    (hb : beh (maxR - (r + 1)) = { pacing := pac, outcome := AttemptOut.loaded c page }) :
    mrLoop url beh maxR (r + 1)
      = ([Ev.sleep pac, Ev.nav url, Ev.sleep 5, Ev.sleep 5, Ev.sleep 5, Ev.sleep 5,
          Ev.sleep 5, Ev.sleep 5, Ev.sleep 5], Except.ok none) ∧
    countNavs (mrLoop url beh maxR (r + 1)).1 = 1 ∧
    (cfHandle c).1.sum = 35 := by
  have hpoll : cfPoll c 6 1 = ([5, 5, 5, 5, 5, 5], 7) := by
    simp [cfPoll, hc 1, hc 2, hc 3, hc 4, hc 5, hc 6]
  have hch : cfHandle c = ([5, 5, 5, 5, 5, 5, 5], false) := by
    simp [cfHandle, hc 0, hc 7, hpoll]
  have hmain : mrLoop url beh maxR (r + 1)
      = ([Ev.sleep pac, Ev.nav url, Ev.sleep 5, Ev.sleep 5, Ev.sleep 5, Ev.sleep 5,
          Ev.sleep 5, Ev.sleep 5, Ev.sleep 5], Except.ok none) := by
    simp [mrLoop, hb, hch]
  refine ⟨hmain, ?_, ?_⟩
  · rw [hmain]; rfl
  · rw [hch]; norm_num

/-- Witness for C4 at an always-challenged behaviour with three attempts
available. -/
theorem claim4_witness :
    mrLoop "https://u" behChallengeForever 3 3
      = ([Ev.sleep 3, Ev.nav "https://u", Ev.sleep 5, Ev.sleep 5, Ev.sleep 5,
          Ev.sleep 5, Ev.sleep 5, Ev.sleep 5, Ev.sleep 5], Except.ok none) ∧
    countNavs (mrLoop "https://u" behChallengeForever 3 3).1 = 1 ∧
    (cfHandle (fun _ => true)).1.sum = 35 :=
  claim4_challenge_timeout_aborts_fetch "https://u" "challenge-page"
    behChallengeForever 3 2 3 (fun _ => true) (fun _ => rfl) rfl

/-- Claim C4 counterexample: with `max_retries = 3` and a challenge that
never resolves, the fetch performs exactly one navigation and returns —
the challenge failure ends the whole fetch rather than only the attempt,
so the remaining two retry attempts never run. -/
theorem claim4_counterexample :
    (mrLoop "https://u" behChallengeForever 3 3).2 = Except.ok none ∧
    countNavs (mrLoop "https://u" behChallengeForever 3 3).1 = 1 ∧
    (1 : Nat) ≠ 3 := by
  refine ⟨rfl, rfl, by decide⟩

/-- A bounded pacing draw satisfies the pacing check. -/
theorem inPace_true (lo hi d : Rat) (h1 : lo ≤ d) (h2 : d ≤ hi) :
    inPace lo hi d = true := by
  simp [inPace, h1, h2]

/-- Prepending a sleep preserves pacedness. -/
theorem navPaced_cons_sleep (lo hi d : Rat) (t : List Ev)
    (h : navPaced lo hi t = true) : navPaced lo hi (Ev.sleep d :: t) = true := by
  cases t with
  | nil => rfl
  | cons e t2 =>
    cases e with
    | nav u => simp [navPaced] at h
    | sleep d2 => simpa [navPaced] using h
    | rebuild => simpa [navPaced] using h

/-- A list of sleeps is paced. -/
theorem navPaced_sleepsOnly (lo hi : Rat) (l : List Ev)
    (h : ∀ e ∈ l, ∃ d, e = Ev.sleep d) : navPaced lo hi l = true := by
  induction l with
  | nil => rfl
  | cons e t ih =>
    obtain ⟨d, hd⟩ := h e (List.mem_cons_self e t)
    subst hd
    exact navPaced_cons_sleep lo hi d t (ih fun x hx => h x (List.mem_cons_of_mem _ hx))

/-- Claim C7 (amended): inside `_make_request` (both modules share the
loop), every navigation — the first attempt, retries after a transient
exception, and retries after a page-load timeout — is immediately
preceded by a pacing sleep drawn from `[min_delay, max_delay]`; no retry
or backoff path inside the loop reaches `driver.get` without it. -/
theorem claim7_make_request_paced (lo hi : Rat) (url : String)
    (beh : Nat → AttemptB) (maxR : Nat)
    (hp : ∀ a, lo ≤ (beh a).pacing ∧ (beh a).pacing ≤ hi) :
    ∀ r, navPaced lo hi (mrLoop url beh maxR r).1 = true := by
  intro r
  induction r with
  | zero => rfl
  | succ r ih =>
    have hip : inPace lo hi (beh (maxR - (r + 1))).pacing = true :=
      inPace_true lo hi _ (hp _).1 (hp _).2
    cases ho : (beh (maxR - (r + 1))).outcome with
    | exn m back rb =>
      by_cases hr : r = 0
      · subst hr
        simp [mrLoop, ho, navPaced, hip]
      · cases rb with
        | none =>
          simp only [mrLoop, ho, hr]
          simp only [List.cons_append, List.nil_append, if_neg hr]
          simp [navPaced, hip]
          exact ih
        | some m2 =>
          simp only [mrLoop, ho, hr]
          simp [navPaced, hip, if_neg hr]
    | bodyTimeout =>
      by_cases hr : r = 0
      · subst hr
        simp [mrLoop, ho, navPaced, hip]
      · simp only [mrLoop, ho]
        simp only [if_neg hr, List.cons_append, List.nil_append]
        cases hrest : (mrLoop url beh maxR r).1 with
        | nil => simp [navPaced, hip]
        | cons e t2 =>
          have hpt : navPaced lo hi (e :: t2) = true := by rw [← hrest]; exact ih
          cases e with
          | nav u => simp [navPaced] at hpt
          | sleep d2 => simp [navPaced, hip, hpt]
          | rebuild =>
            simp [navPaced, hip]
            simpa [navPaced] using hpt
    | loaded c page =>
      have hsleeps : ∀ t : List Rat,
          navPaced lo hi (t.map Ev.sleep ++ [Ev.sleep 2]) = true := by
        intro t
        refine navPaced_sleepsOnly lo hi _ ?_
        intro e he
        rcases List.mem_append.mp he with h1 | h1
        · obtain ⟨d, _, hd⟩ := List.mem_map.mp h1
          exact ⟨d, hd.symm⟩
        · exact ⟨2, List.mem_singleton.mp h1⟩
      have hsleeps2 : ∀ t : List Rat,
          navPaced lo hi (t.map Ev.sleep) = true := by
        intro t
        refine navPaced_sleepsOnly lo hi _ ?_
        intro e he
        obtain ⟨d, _, hd⟩ := List.mem_map.mp he
        exact ⟨d, hd.symm⟩
      by_cases hch : (cfHandle c).2
      · simp only [mrLoop, ho, hch, if_pos hch, List.cons_append, List.nil_append]
        cases hcl : (cfHandle c).1 with
        | nil => simp [navPaced, hip]
        | cons d ds =>
          have := hsleeps (d :: ds)
          simp only [List.map_cons, List.cons_append] at this ⊢
          simp [navPaced, hip]
          simpa [navPaced] using this
      · simp only [mrLoop, ho, hch, if_neg hch, List.cons_append, List.nil_append]
        cases hcl : (cfHandle c).1 with
        | nil => simp [navPaced, hip]
        | cons d ds =>
          have := hsleeps2 (d :: ds)
          simp only [List.map_cons] at this ⊢
          simp [navPaced, hip]
          simpa [navPaced] using this

/-- Witness for C7: a clean three-attempt fetch with pacing draw 5 in
`[5, 10]` produces a paced trace. -/
theorem claim7_witness :
    navPaced 5 10 (mrLoop baseUrl formHappy.home 3 3).1 = true :=
  claim7_make_request_paced 5 10 baseUrl formHappy.home 3
    (fun _ => ⟨le_refl _, show (5 : Rat) ≤ 10 by norm_num⟩) 3

/-- Claim C7 counterexample: in the batch path's form flow the submit
click — a navigation — follows the homepage navigation after only the
fixed 2s and 1s waits; no randomized pacing delay from
`[min_delay, max_delay] = [5, 10]` precedes it, so the trace is not
paced and the claim fails for form-submission navigations. -/
theorem claim7_counterexample :
    searchByAddressNav 3 formHappy
      = ([Ev.sleep 5, Ev.nav baseUrl, Ev.sleep 2, Ev.sleep 2, Ev.sleep 1,
          Ev.nav "form-submit"], Except.ok (some "results-page")) ∧
    navPaced 5 10 (searchByAddressNav 3 formHappy).1 = false := by
  refine ⟨rfl, by decide⟩

/-- `takeRun` decomposes its input. -/
theorem takeRun_append (p : Char → Bool) (l : List Char) :
    (takeRun p l).1 ++ (takeRun p l).2 = l := by
  induction l with
  | nil => rfl
  | cons c cs ih =>
    by_cases h : p c
    · simp [takeRun, h, ih]
    · simp [takeRun, h]

/-- A successful dot-split means a dot is present. -/
theorem saDot_mem (l : List Char) :
    ∀ pr : List Char × List Char, splitAtLastViableDot l = some pr → '.' ∈ l := by
  induction l with
  | nil => intro pr h; simp [splitAtLastViableDot] at h
  | cons c cs ih =>
    intro pr h
    rw [splitAtLastViableDot] at h
    cases hrec : splitAtLastViableDot cs with
    | some pr2 => exact List.mem_cons_of_mem _ (ih pr2 hrec)
    | none =>
      rw [hrec] at h
      by_cases hc : c = '.'
      · exact hc ▸ List.mem_cons_self _ _
      · simp [hc] at h

/-- A successful email match means an `@` is present. -/
theorem matchAt_at_mem (l : List Char) (pr : List Char × List Char)
    (h : matchAt l = some pr) : '@' ∈ l := by
  rw [matchAt] at h
  rcases h1 : (takeRun isWordDotDash l).1 with _ | ⟨c, cs⟩ <;> rw [h1] at h
  · simp at h
  · rcases h2 : (takeRun isWordDotDash l).2 with _ | ⟨c2, rest2⟩ <;> rw [h2] at h
    · simp at h
    · by_cases hc2 : c2 = '@'
      · have h3 : '@' ∈ (takeRun isWordDotDash l).2 := by
          rw [h2, ← hc2]; exact List.mem_cons_self _ _
        have h4 := takeRun_append isWordDotDash l
        rw [← h4]
        exact List.mem_append.mpr (Or.inr h3)
      · simp [hc2] at h

/-- A successful email match means a dot is present. -/
theorem matchAt_dot_mem (l : List Char) (pr : List Char × List Char)
    (h : matchAt l = some pr) : '.' ∈ l := by
  rw [matchAt] at h
  rcases h1 : (takeRun isWordDotDash l).1 with _ | ⟨c, cs⟩ <;> rw [h1] at h
  · simp at h
  · rcases h2 : (takeRun isWordDotDash l).2 with _ | ⟨c2, rest2⟩ <;> rw [h2] at h
    · simp at h
    · by_cases hc2 : c2 = '@'
      · simp only [if_pos hc2] at h
        by_cases he : (takeRun isWordDotDash rest2).1.isEmpty
        · simp [he] at h
        · simp only [he, Bool.false_eq_true, if_false] at h
          cases hs : splitAtLastViableDot (takeRun isWordDotDash rest2).1 with
          | none => rw [hs] at h; simp at h
          | some pr2 =>
            have hdot : '.' ∈ (takeRun isWordDotDash rest2).1 :=
              saDot_mem _ pr2 hs
            have hd2 : '.' ∈ rest2 := by
              have h4 := takeRun_append isWordDotDash rest2
              rw [← h4]
              exact List.mem_append.mpr (Or.inl hdot)
            have h3 : '.' ∈ (takeRun isWordDotDash l).2 := by
              rw [h2]; exact List.mem_cons_of_mem _ hd2
            have h4 := takeRun_append isWordDotDash l
            rw [← h4]
            exact List.mem_append.mpr (Or.inr h3)
      · simp [hc2] at h

/-- The email scan of a text without `@` or without a dot is empty. -/
theorem scanEmails_nil (fuel : Nat) :
    ∀ l : List Char, ('@' ∉ l ∨ '.' ∉ l) → scanEmails fuel l = [] := by
  induction fuel with
  | zero => intro l _; rfl
  | succ fuel ih =>
    intro l h
    cases l with
    | nil => rfl
    | cons c cs =>
      have hm : matchAt (c :: cs) = none := by
        cases hm2 : matchAt (c :: cs) with
        | none => rfl
        | some pr =>
          rcases h with h | h
          · exact absurd (matchAt_at_mem _ pr hm2) h
          · exact absurd (matchAt_dot_mem _ pr hm2) h
      have hsub : ('@' ∉ cs ∨ '.' ∉ cs) := by
        rcases h with h | h
        · exact Or.inl fun hc => h (List.mem_cons_of_mem _ hc)
        · exact Or.inr fun hc => h (List.mem_cons_of_mem _ hc)
      simp [scanEmails, hm, ih cs hsub]

/-- `findall` of the email pattern on such a text is empty. -/
theorem findEmails_nil (t : String) (h : '@' ∉ t.toList ∨ '.' ∉ t.toList) :
    findEmails t = [] := by
  rw [findEmails, scanEmails_nil _ _ h]
  rfl

/-- Single-character substring containment is membership. -/
theorem subIn_single_false (c : Char) (l : List Char) :
    subIn [c] l = false → c ∉ l := by
  induction l with
  | nil => intro _; simp
  | cons x xs ih =>
    intro h hm
    rw [subIn] at h
    obtain ⟨h1, h2⟩ := Bool.or_eq_false_iff.mp h
    rcases List.mem_cons.mp hm with rfl | hm2
    · simp [leadsWith] at h1
    · exact ih h2 hm2

/-- The Python guard `'@' in t and '.' in t` evaluating false means one
of the characters is absent. -/
theorem guard_false_mem (t : String)
    (h : (strContains t "@" && strContains t ".") = false) :
    '@' ∉ t.toList ∨ '.' ∉ t.toList := by
  rcases Bool.and_eq_false_iff.mp h with h1 | h1
  · exact Or.inl (subIn_single_false _ _ h1)
  · exact Or.inr (subIn_single_false _ _ h1)

/-- Dedup-append over a concatenation. -/
theorem dedupAppend_append (acc xs ys : List String) :
    dedupAppend acc (xs ++ ys) = dedupAppend (dedupAppend acc xs) ys :=
  List.foldl_append _ _ _ _

/-- The api email scan computes the spec extraction: pattern-matching
substrings in block order, deduplicated first-seen. -/
theorem apiEmailScan_eq_spec (ts : List String) :
    apiEmailScan ts = specEmailExtraction ts := by
  suffices h : ∀ (us : List String) (acc : List String),
      us.foldl (fun acc t =>
        if strContains t "@" && strContains t "." then dedupAppend acc (findEmails t)
        else acc) acc = dedupAppend acc (us.flatMap findEmails) by
    exact h ts []
  intro us
  induction us with
  | nil => intro acc; rfl
  | cons t rest ih =>
    intro acc
    by_cases hg : (strContains t "@" && strContains t ".") = true
    · simp only [List.foldl_cons, hg, if_true, List.flatMap_cons, dedupAppend_append]
      exact ih _
    · have hg2 : (strContains t "@" && strContains t ".") = false := by
        cases hb : (strContains t "@" && strContains t ".")
        · rfl
        · exact absurd hb hg
      have hfe : findEmails t = [] := findEmails_nil t (guard_false_mem t hg2)
      simp only [List.foldl_cons, hg2, Bool.false_eq_true, if_false, List.flatMap_cons,
        hfe, List.nil_append]
      exact ih acc

/-- Claim C8 (amended): in the request-response path, email extraction
collects exactly the pattern-matching substrings of the content blocks,
deduplicated by exact string equality with first-seen order preserved —
in particular the a@x.com, b@y.com, a@x.com scenario yields
[a@x.com, b@y.com].  The batch path instead records each whole
content-block text containing `@` and `.` as a single email (first-seen
deduplicated), without isolating the matching substring. -/
theorem claim8_email_extraction :
    (∀ ts, apiEmailScan ts = specEmailExtraction ts) ∧
    apiEmailScan ["a@x.com", "b@y.com", "a@x.com"] = ["a@x.com", "b@y.com"] ∧
    scraperEmailScan ["a@x.com", "b@y.com", "a@x.com"] = ["a@x.com", "b@y.com"] := by
  refine ⟨apiEmailScan_eq_spec, by decide, by decide⟩

/-- Claim C8 counterexample: on a content block whose text is
"Email: a@x.com", the batch-path extraction keeps the whole block text
instead of the pattern-matching substring, so batch email extraction
does not collect exactly the matching substrings. -/
theorem claim8_counterexample :
    scraperEmailScan ["Email: a@x.com"] = ["Email: a@x.com"] ∧
    specEmailExtraction ["Email: a@x.com"] = ["a@x.com"] ∧
    scraperEmailScan ["Email: a@x.com"] ≠ specEmailExtraction ["Email: a@x.com"] := by
  refine ⟨by decide, by decide, by decide⟩

/-- A flagged block has the phone anchor. -/
theorem primaryFlagged_hasLink (b : PhoneBlock) (h : primaryFlagged b = true) :
    b.hasLink = true := by
  rw [primaryFlagged, Bool.and_eq_true] at h
  exact h.1

/-- An unflagged step of the promoting scan behaves like the plain scan,
for any value of the `phone` variable. -/
theorem scanStep_noflag (b : PhoneBlock) (hb : primaryFlagged b = false)
    (acc : List String) (last : Option String) :
    ∃ last2, scanStep (some (acc, last)) b = some (plainStep acc b, last2) := by
  by_cases hl : b.hasLink
  · cases hsp : b.span with
    | none => exact ⟨last, by simp [scanStep, plainStep, hl, hsp, hb]⟩
    | some p => exact ⟨some p, by simp [scanStep, plainStep, hl, hsp, hb]⟩
  · exact ⟨last, by simp [scanStep, plainStep, hl]⟩

/-- Folding the promoting scan over an unflagged segment computes the
plain fold. -/
theorem scanFold_noflag (l : List PhoneBlock) (hnf : ∀ b ∈ l, primaryFlagged b = false) :
    ∀ (acc : List String) (last : Option String),
      ∃ last2, l.foldl scanStep (some (acc, last)) = some (l.foldl plainStep acc, last2) := by
  induction l with
  | nil => intro acc last; exact ⟨last, rfl⟩
  | cons b t ih =>
    intro acc last
    obtain ⟨last2, h2⟩ := scanStep_noflag b (hnf b (List.mem_cons_self b t)) acc last
    obtain ⟨last3, h3⟩ :=
      ih (fun x hx => hnf x (List.mem_cons_of_mem b hx)) (plainStep acc b) last2
    exact ⟨last3, by rw [List.foldl_cons, h2, h3, List.foldl_cons]⟩

/-- The promoted-head relation between the two accumulators is preserved
by one plain step. -/
theorem plainStep_rel (p : String) (accP : List String) (b : PhoneBlock)
    (hmem : p ∈ accP) :
    plainStep (p :: accP.erase p) b = p :: (plainStep accP b).erase p ∧
      p ∈ plainStep accP b := by
  by_cases hl : b.hasLink
  · cases hsp : b.span with
    | none => exact ⟨by simp [plainStep, hl, hsp], by simp [plainStep, hl, hsp, hmem]⟩
    | some q =>
      have hiff : (q ∈ p :: accP.erase p) ↔ q ∈ accP :=
        (List.perm_cons_erase hmem).mem_iff.symm
      by_cases hq : q ∈ accP
      · have hq2 : q ∈ p :: accP.erase p := hiff.mpr hq
        exact ⟨by simp [plainStep, hl, hsp, hq, hq2], by simp [plainStep, hl, hsp, hq, hmem]⟩
      · have hq2 : q ∉ p :: accP.erase p := fun hc => hq (hiff.mp hc)
        constructor
        · have he : (accP ++ [q]).erase p = accP.erase p ++ [q] :=
            List.erase_append_left [q] hmem
          simp [plainStep, hl, hsp, hq, hq2, he]
        · simp [plainStep, hl, hsp, hq, List.mem_append, hmem]
  · exact ⟨by simp [plainStep, hl], by simp [plainStep, hl, hmem]⟩

/-- The promoted-head relation is preserved by a plain fold. -/
theorem plainFold_rel (p : String) (l : List PhoneBlock) :
    ∀ accP : List String, p ∈ accP →
      l.foldl plainStep (p :: accP.erase p) = p :: (l.foldl plainStep accP).erase p ∧
        p ∈ l.foldl plainStep accP := by
  induction l with
  | nil => intro accP hmem; exact ⟨rfl, hmem⟩
  | cons b t ih =>
    intro accP hmem
    obtain ⟨h1, h2⟩ := plainStep_rel p accP b hmem
    obtain ⟨h3, h4⟩ := ih (plainStep accP b) h2
    exact ⟨by rw [List.foldl_cons, h1, h3, List.foldl_cons], by rw [List.foldl_cons]; exact h4⟩

/-- The flagged step promotes the just-scanned phone to the head. -/
theorem scanStep_flagged (b : PhoneBlock) (p : String)
    (hflag : primaryFlagged b = true) (hspan : b.span = some p)
    (acc : List String) (last : Option String) :
    scanStep (some (acc, last)) b = some (p :: (plainStep acc b).erase p, some p) ∧
      p ∈ plainStep acc b := by
  have hl : b.hasLink = true := primaryFlagged_hasLink b hflag
  have hmem : p ∈ plainStep acc b := by
    by_cases hp : p ∈ acc
    · simp [plainStep, hl, hspan, hp]
    · simp [plainStep, hl, hspan, hp]
  constructor
  · by_cases hp : p ∈ acc
    · simp [scanStep, plainStep, hl, hspan, hflag, hp]
    · simp [scanStep, plainStep, hl, hspan, hflag, hp]
  · exact hmem

/-- Claim C6 (amended): in the batch-path extraction, when exactly one
phone block carrying a telephone span is flagged "possible primary",
the returned phone list has that phone first and all other phones in
their original scan order (the plain scan with the promoted phone
erased) — stable promotion.  The request-response-path extraction
performs no promotion at all, which refutes the claim as stated over
both paths (see the counterexample). -/
theorem claim6_primary_promotion (l1 l2 : List PhoneBlock) (b : PhoneBlock)
    (p : String) (hflag : primaryFlagged b = true) (hspan : b.span = some p)
    (hl1 : ∀ b2 ∈ l1, primaryFlagged b2 = false)
    (hl2 : ∀ b2 ∈ l2, primaryFlagged b2 = false) :
    scraperPhoneScan (l1 ++ b :: l2)
      = some (p :: (plainPhoneScan (l1 ++ b :: l2)).erase p) ∧
    p ∈ plainPhoneScan (l1 ++ b :: l2) := by
  obtain ⟨lastA, hA⟩ := scanFold_noflag l1 hl1 [] none
  have hstep := scanStep_flagged b p hflag hspan (l1.foldl plainStep []) lastA
  obtain ⟨lastB, hB⟩ := scanFold_noflag l2 hl2
    (p :: (plainStep (l1.foldl plainStep []) b).erase p) (some p)
  obtain ⟨hrel1, hrel2⟩ := plainFold_rel p l2 (plainStep (l1.foldl plainStep []) b) hstep.2
  have hplain : plainPhoneScan (l1 ++ b :: l2)
      = l2.foldl plainStep (plainStep (l1.foldl plainStep []) b) := by
    rw [plainPhoneScan, List.foldl_append, List.foldl_cons]
  constructor
  · rw [scraperPhoneScan, List.foldl_append, hA, List.foldl_cons, hstep.1, hB]
    rw [hplain, ← hrel1]
    rfl
  · rw [hplain]; exact hrel2

/-- Witness for C6: a primary-flagged block scanned second is promoted
to the head of the batch-path phone list. -/
theorem claim6_witness :
    scraperPhoneScan [blockPlain, blockPrimary]
      = some ("444-555-6666"
          :: (plainPhoneScan [blockPlain, blockPrimary]).erase "444-555-6666") ∧
    "444-555-6666" ∈ plainPhoneScan [blockPlain, blockPrimary] :=
  claim6_primary_promotion [blockPlain] [] blockPrimary "444-555-6666"
    (by decide) (by decide)
    (fun b2 hb2 => by rw [List.mem_singleton.mp hb2]; decide)
    (fun b2 hb2 => absurd hb2 (List.not_mem_nil b2))

/-- Claim C6 counterexample: the same two blocks through the
request-response-path extraction: the flagged phone stays second — that
path never reorders, so the claim fails for it. -/
theorem claim6_counterexample :
    scraperPhoneScan [blockPlain, blockPrimary]
      = some ["444-555-6666", "111-222-3333"] ∧
    primaryFlagged blockPrimary = true ∧
    apiPhoneNumbers [blockPlain, blockPrimary]
      = ["111-222-3333", "444-555-6666"] ∧
    (apiPhoneNumbers [blockPlain, blockPrimary]).head? ≠ some "444-555-6666" := by
  refine ⟨by decide, by decide, by decide, by decide⟩

end TPS
